import Mathlib

/-!
Shallow embedding of `src/app.py` (a Streamlit dashboard over a fixed-schema
table of gender headcounts by year and specialisation), together with proofs
of the spec's testable properties.

The data frame is modelled as a `List Row`; pandas column arithmetic is
modelled column-wise.  Division of integer columns follows pandas/NumPy
semantics: `a / 0` is `NaN` when `a = 0` and `+inf` when `a > 0` (no
exception is raised), and otherwise yields an exact rational.  Counts are
natural numbers, per the input schema (non-negative integer columns).
-/

namespace GenderDash

/-- One record of the CSV data source: columns `Year`, `Specialisation`,
`Female`, `Male`, `Diverse`, `Total_headcount` (`src/app.py` line 12). -/
structure Row where
  Year : Int
  Specialisation : String
  Female : Nat
  Male : Nat
  Diverse : Nat
  Total_headcount : Nat
deriving DecidableEq, Repr

/-- The value of a pandas division of non-negative integer columns: an exact
rational, `NaN` (from `0 / 0`), or `+inf` (from `a / 0` with `a > 0`). -/
inductive PdVal where
  | val (q : ℚ)
  | nan
  | inf
deriving DecidableEq, Repr

/-- pandas/NumPy division `a / b` on non-negative integers: never raises;
`0 / 0 = NaN`, `a / 0 = +inf` for `a > 0`, exact rational otherwise. -/
def pdiv (a b : Nat) : PdVal :=
  if b = 0 then (if a = 0 then PdVal.nan else PdVal.inf)
  else PdVal.val ((a : ℚ) / (b : ℚ))

/-- IEEE-style addition on `PdVal` (no negative values occur here): `NaN`
propagates, otherwise `+inf` propagates, otherwise exact rational addition. -/
def PdVal.add : PdVal → PdVal → PdVal
  | PdVal.nan, _ => PdVal.nan
  | _, PdVal.nan => PdVal.nan
  | PdVal.inf, _ => PdVal.inf
  | _, PdVal.inf => PdVal.inf
  | PdVal.val a, PdVal.val b => PdVal.val (a + b)

instance : Add PdVal := ⟨PdVal.add⟩

/-- `src/app.py` line 41:
`filtered = df[df["Year"].isin(years) & df["Specialisation"].isin(specs)]`.
Row-order-preserving filter of the data source. -/
def filtered (df : List Row) (years : List Int) (specs : List String) : List Row :=
  df.filter (fun r => years.contains r.Year && specs.contains r.Specialisation)

/-- `src/app.py` line 44: `filtered["Female"] / filtered["Total_headcount"]`. -/
def Female_pct (r : Row) : PdVal := pdiv r.Female r.Total_headcount

/-- `src/app.py` line 45: `filtered["Male"] / filtered["Total_headcount"]`. -/
def Male_pct (r : Row) : PdVal := pdiv r.Male r.Total_headcount

/-- `src/app.py` line 46: `filtered["Diverse"] / filtered["Total_headcount"]`. -/
def Diverse_pct (r : Row) : PdVal := pdiv r.Diverse r.Total_headcount

/-- The four top-level metrics, `src/app.py` lines 49-52. -/
structure SummaryTotals where
  total_headcount : Nat
  total_female : Nat
  total_male : Nat
  total_diverse : Nat
deriving DecidableEq, Repr

/-- `src/app.py` lines 49-52: each total is the `.sum()` of one column of
`filtered` (pandas sums an empty column to 0). -/
def summaryTotals (t : List Row) : SummaryTotals where
  total_headcount := (t.map Row.Total_headcount).sum
  total_female := (t.map Row.Female).sum
  total_male := (t.map Row.Male).sum
  total_diverse := (t.map Row.Diverse).sum

/-- `src/app.py` line 56: the "Female share" metric value
`total_female / total_headcount` (NumPy scalar division, never raises). -/
def female_share (t : List Row) : PdVal :=
  pdiv (summaryTotals t).total_female (summaryTotals t).total_headcount

/-- `src/app.py` line 57: the "Male share" metric value
`total_male / total_headcount`. -/
def male_share (t : List Row) : PdVal :=
  pdiv (summaryTotals t).total_male (summaryTotals t).total_headcount

/-- The distinct `Year` keys of a pandas `groupby("Year")`, in the sorted
ascending order pandas produces. -/
def yearKeys (t : List Row) : List Int :=
  ((t.map Row.Year).dedup).insertionSort (· ≤ ·)

/-- One row of `yearly_agg` (`src/app.py` line 61). -/
structure YearAgg where
  Year : Int
  Female : Nat
  Male : Nat
  Diverse : Nat
deriving DecidableEq, Repr

/-- `src/app.py` line 61:
`filtered.groupby("Year", as_index=False)[["Female","Male","Diverse"]].sum()`. -/
def yearly_agg (t : List Row) : List YearAgg :=
  (yearKeys t).map (fun y =>
    { Year := y
      Female := ((t.filter (fun r => r.Year == y)).map Row.Female).sum
      Male := ((t.filter (fun r => r.Year == y)).map Row.Male).sum
      Diverse := ((t.filter (fun r => r.Year == y)).map Row.Diverse).sum })

/-- The fixed three-element gender domain. -/
inductive Gender where
  | Female
  | Male
  | Diverse
deriving DecidableEq, Repr

/-- One row of the long-form (melted) by-year aggregate. -/
structure YearLong where
  Year : Int
  Gender : Gender
  Count : Nat
deriving DecidableEq, Repr

/-- `src/app.py` lines 62-67: `yearly_agg.melt(id_vars=["Year"],
value_vars=["Female","Male","Diverse"], ...)`.  pandas `melt` stacks the
value variables in order: all Female rows, then Male, then Diverse. -/
def melted_agg (t : List Row) : List YearLong :=
  ((yearly_agg t).map fun a => { Year := a.Year, Gender := Gender.Female, Count := a.Female }) ++
  ((yearly_agg t).map fun a => { Year := a.Year, Gender := Gender.Male, Count := a.Male }) ++
  ((yearly_agg t).map fun a => { Year := a.Year, Gender := Gender.Diverse, Count := a.Diverse })

/-- The distinct `Specialisation` keys of `groupby("Specialisation")`, in
pandas' sorted ascending order. -/
def specKeys (t : List Row) : List String :=
  ((t.map Row.Specialisation).dedup).insertionSort (· ≤ ·)

/-- One row of `spec_agg` (`src/app.py` line 165). -/
structure SpecAgg where
  Specialisation : String
  Female : Nat
  Male : Nat
  Diverse : Nat
deriving DecidableEq, Repr

/-- `src/app.py` line 165:
`filtered.groupby("Specialisation", as_index=False)[["Female","Male","Diverse"]].sum()`. -/
def spec_agg (t : List Row) : List SpecAgg :=
  (specKeys t).map (fun s =>
    { Specialisation := s
      Female := ((t.filter (fun r => r.Specialisation == s)).map Row.Female).sum
      Male := ((t.filter (fun r => r.Specialisation == s)).map Row.Male).sum
      Diverse := ((t.filter (fun r => r.Specialisation == s)).map Row.Diverse).sum })

/-- One row of the long-form (melted) by-specialisation aggregate. -/
structure SpecLong where
  Specialisation : String
  Gender : Gender
  Count : Nat
deriving DecidableEq, Repr

/-- `src/app.py` lines 166-171: `spec_agg.melt(id_vars=["Specialisation"],
value_vars=["Female","Male","Diverse"], ...)`. -/
def melted_spec (t : List Row) : List SpecLong :=
  ((spec_agg t).map fun a =>
    { Specialisation := a.Specialisation, Gender := Gender.Female, Count := a.Female }) ++
  ((spec_agg t).map fun a =>
    { Specialisation := a.Specialisation, Gender := Gender.Male, Count := a.Male }) ++
  ((spec_agg t).map fun a =>
    { Specialisation := a.Specialisation, Gender := Gender.Diverse, Count := a.Diverse })

/-- One row of `spec_pct` (`src/app.py` lines 185-189): the grouped counts
together with the recomputed group total and the three percentage columns. -/
structure SpecPct where
  Specialisation : String
  Female : Nat
  Male : Nat
  Diverse : Nat
  Total : Nat
  Female_pct : PdVal
  Male_pct : PdVal
  Diverse_pct : PdVal
deriving DecidableEq, Repr

/-- `src/app.py` lines 185-189: `spec_pct["Total"] = Female + Male + Diverse`
and each percentage column is the gender count divided by `Total` (the
recomputed per-group sum, not the `Total_headcount` column). -/
def spec_pct (t : List Row) : List SpecPct :=
  (spec_agg t).map (fun a =>
    { Specialisation := a.Specialisation
      Female := a.Female
      Male := a.Male
      Diverse := a.Diverse
      Total := a.Female + a.Male + a.Diverse
      Female_pct := pdiv a.Female (a.Female + a.Male + a.Diverse)
      Male_pct := pdiv a.Male (a.Female + a.Male + a.Diverse)
      Diverse_pct := pdiv a.Diverse (a.Female + a.Male + a.Diverse) })

/-- The sidebar palette source selectbox, `src/app.py` lines 70-73. -/
inductive PaletteSource where
  | defaultRBL
  | colorBrewerPaired
  | okabeIto
  | custom
deriving DecidableEq, Repr

/-- The resolved three-color mapping (legend variables `female_col`,
`male_col`, `diverse_col`). -/
structure ColorMapping where
  female_col : String
  male_col : String
  diverse_col : String
deriving DecidableEq, Repr

/-- `src/app.py` lines 79-108: the colorblind override takes precedence and
forces the Okabe-Ito triple; otherwise the palette source selects among the
default, ColorBrewer-Paired representative, Okabe-Ito, or custom-picked
hex triples. -/
def resolveColors (use_colorblind : Bool) (palette_source : PaletteSource)
    (customFemale customMale customDiverse : String) : ColorMapping :=
  if use_colorblind then
    { female_col := "#E69F00", male_col := "#0072B2", diverse_col := "#009E73" }
  else
    match palette_source with
    | PaletteSource.defaultRBL =>
        { female_col := "#FF6B6B", male_col := "#4169E1", diverse_col := "#95B8D1" }
    | PaletteSource.colorBrewerPaired =>
        { female_col := "#a6cee3", male_col := "#1f78b4", diverse_col := "#b2df8a" }
    | PaletteSource.okabeIto =>
        { female_col := "#E69F00", male_col := "#0072B2", diverse_col := "#009E73" }
    | PaletteSource.custom =>
        { female_col := customFemale, male_col := customMale, diverse_col := customDiverse }

/-- The two presentation paths of `src/app.py` lines 110-136. -/
inductive ChartPath where
  | pie
  | stackedBar
deriving DecidableEq, Repr

/-- `src/app.py` line 110: `if len(years) == 1:` selects the pie chart,
otherwise the stacked bar chart.  The underlying data frame is in scope but
the decision reads only the year selection. -/
def chartPath (_df : List Row) (years : List Int) : ChartPath :=
  if years.length = 1 then ChartPath.pie else ChartPath.stackedBar

/-- The spec's worked example data source:
`[{2019,"Civil",10,30,2,42}, {2020,"Civil",12,28,3,43}]`. -/
def exampleDf : List Row :=
  [ { Year := 2019, Specialisation := "Civil", Female := 10, Male := 30,
      Diverse := 2, Total_headcount := 42 },
    { Year := 2020, Specialisation := "Civil", Female := 12, Male := 28,
      Diverse := 3, Total_headcount := 43 } ]

/-- Scrubbing the `Total_headcount` column of a row: used to state that the
percentage-by-specialisation aggregate never reads `Total_headcount`. -/
def scrubHeadcount (r : Row) : Row := { r with Total_headcount := 0 }

/-! ### Helper lemmas -/

/-- Splitting a mapped sum along a Boolean predicate. -/
theorem sum_map_filter_split {α : Type} (p : α → Bool) (f : α → Nat) (t : List α) :
    ((t.filter p).map f).sum + ((t.filter fun a => !p a).map f).sum = (t.map f).sum := by
  induction t with
  | nil => simp
  | cons a t ih =>
    by_cases h : p a <;> simp [List.filter_cons, h] <;> omega

/-- Summing per-group sums over a duplicate-free list of keys that covers
every element recovers the total sum: a groupby partition conserves column
sums. -/
theorem sum_over_groups {α κ : Type} [BEq κ] [LawfulBEq κ] (key : α → κ) (f : α → Nat) :
    ∀ (K : List κ) (t : List α), K.Nodup → (∀ r ∈ t, key r ∈ K) →
      (K.map fun k => ((t.filter fun r => key r == k).map f).sum).sum = (t.map f).sum := by
  intro K
  induction K with
  | nil =>
    intro t _ hcov
    have ht : t = [] :=
      List.eq_nil_iff_forall_not_mem.mpr fun r hr => absurd (hcov r hr) (List.not_mem_nil _)
    subst ht
    simp
  | cons k K ih =>
    intro t hnd hcov
    simp only [List.map_cons, List.sum_cons]
    have htail :
        (K.map fun k2 => ((t.filter fun r => key r == k2).map f).sum)
          = K.map fun k2 =>
              (((t.filter fun r => !(key r == k)).filter fun r => key r == k2).map f).sum := by
      refine List.map_congr_left fun k2 hk2 => ?_
      have hkk2 : k ≠ k2 := by
        rintro rfl
        exact (List.nodup_cons.mp hnd).1 hk2
      rw [List.filter_filter]
      congr 1
      congr 1
      refine List.filter_congr fun r _ => ?_
      cases hr2 : key r == k2 with
      | false => simp
      | true =>
        have hrk2 : key r = k2 := eq_of_beq hr2
        have h3 : (key r == k) = false :=
          beq_eq_false_iff_ne.mpr (by rw [hrk2]; exact fun h => hkk2 h.symm)
        simp [h3]
    rw [htail]
    rw [ih (t.filter fun r => !(key r == k)) (List.nodup_cons.mp hnd).2 ?cov]
    case cov =>
      intro r hr
      rw [List.mem_filter] at hr
      rcases List.mem_cons.mp (hcov r hr.1) with h | h
      · exfalso
        simp [h] at hr
      · exact h
    exact sum_map_filter_split (fun r => key r == k) f t

/-- Every row's `Year` occurs among the groupby keys. -/
theorem mem_yearKeys {t : List Row} {r : Row} (hr : r ∈ t) : r.Year ∈ yearKeys t := by
  unfold yearKeys
  rw [(List.perm_insertionSort _ _).mem_iff, List.mem_dedup]
  exact List.mem_map_of_mem _ hr

/-- The groupby keys for `Year` are duplicate-free. -/
theorem nodup_yearKeys (t : List Row) : (yearKeys t).Nodup :=
  (List.perm_insertionSort _ _).nodup_iff.mpr (List.nodup_dedup _)

/-- Every row's `Specialisation` occurs among the groupby keys. -/
theorem mem_specKeys {t : List Row} {r : Row} (hr : r ∈ t) : r.Specialisation ∈ specKeys t := by
  unfold specKeys
  rw [(List.perm_insertionSort _ _).mem_iff, List.mem_dedup]
  exact List.mem_map_of_mem _ hr

/-- The groupby keys for `Specialisation` are duplicate-free. -/
theorem nodup_specKeys (t : List Row) : (specKeys t).Nodup :=
  (List.perm_insertionSort _ _).nodup_iff.mpr (List.nodup_dedup _)

/-- The by-year aggregate conserves the `Female` column sum. -/
theorem yearly_agg_female (t : List Row) :
    ((yearly_agg t).map (fun a => a.Female)).sum = (t.map Row.Female).sum := by
  unfold yearly_agg
  rw [List.map_map]
  exact sum_over_groups Row.Year Row.Female (yearKeys t) t (nodup_yearKeys t)
    (fun r hr => mem_yearKeys hr)

/-- The by-year aggregate conserves the `Male` column sum. -/
theorem yearly_agg_male (t : List Row) :
    ((yearly_agg t).map (fun a => a.Male)).sum = (t.map Row.Male).sum := by
  unfold yearly_agg
  rw [List.map_map]
  exact sum_over_groups Row.Year Row.Male (yearKeys t) t (nodup_yearKeys t)
    (fun r hr => mem_yearKeys hr)

/-- The by-year aggregate conserves the `Diverse` column sum. -/
theorem yearly_agg_diverse (t : List Row) :
    ((yearly_agg t).map (fun a => a.Diverse)).sum = (t.map Row.Diverse).sum := by
  unfold yearly_agg
  rw [List.map_map]
  exact sum_over_groups Row.Year Row.Diverse (yearKeys t) t (nodup_yearKeys t)
    (fun r hr => mem_yearKeys hr)

/-- The by-specialisation aggregate conserves the `Female` column sum. -/
theorem spec_agg_female (t : List Row) :
    ((spec_agg t).map (fun a => a.Female)).sum = (t.map Row.Female).sum := by
  unfold spec_agg
  rw [List.map_map]
  exact sum_over_groups Row.Specialisation Row.Female (specKeys t) t (nodup_specKeys t)
    (fun r hr => mem_specKeys hr)

/-- The by-specialisation aggregate conserves the `Male` column sum. -/
theorem spec_agg_male (t : List Row) :
    ((spec_agg t).map (fun a => a.Male)).sum = (t.map Row.Male).sum := by
  unfold spec_agg
  rw [List.map_map]
  exact sum_over_groups Row.Specialisation Row.Male (specKeys t) t (nodup_specKeys t)
    (fun r hr => mem_specKeys hr)

/-- The by-specialisation aggregate conserves the `Diverse` column sum. -/
theorem spec_agg_diverse (t : List Row) :
    ((spec_agg t).map (fun a => a.Diverse)).sum = (t.map Row.Diverse).sum := by
  unfold spec_agg
  rw [List.map_map]
  exact sum_over_groups Row.Specialisation Row.Diverse (specKeys t) t (nodup_specKeys t)
    (fun r hr => mem_specKeys hr)

/-- A filter keeps a mapped list whole when the predicate holds on the image. -/
theorem filter_of_map_all {α β : Type} (p : β → Bool) (f : α → β) (l : List α)
    (h : ∀ a, p (f a) = true) : (l.map f).filter p = l.map f :=
  List.filter_eq_self.mpr fun b hb => by
    obtain ⟨a, -, rfl⟩ := List.mem_map.mp hb
    exact h a

/-- A filter empties a mapped list when the predicate fails on the image. -/
theorem filter_of_map_none {α β : Type} (p : β → Bool) (f : α → β) (l : List α)
    (h : ∀ a, p (f a) = false) : (l.map f).filter p = [] :=
  List.filter_eq_nil_iff.mpr fun b hb => by
    obtain ⟨a, -, rfl⟩ := List.mem_map.mp hb
    simp [h a]

/-- Pointwise sum of the three count columns equals the sum of their sums. -/
theorem sum_map_add3 (t : List Row) :
    (t.map (fun r => r.Female + r.Male + r.Diverse)).sum
      = (t.map Row.Female).sum + (t.map Row.Male).sum + (t.map Row.Diverse).sum := by
  induction t with
  | nil => rfl
  | cons r t ih =>
    simp only [List.map_cons, List.sum_cons, ih]
    omega

/-- The melted by-year aggregate conserves the grand total of counts. -/
theorem melted_agg_total (t : List Row) :
    ((melted_agg t).map (fun e => e.Count)).sum
      = (t.map (fun r => r.Female + r.Male + r.Diverse)).sum := by
  unfold melted_agg
  rw [List.map_append, List.map_append, List.sum_append, List.sum_append,
    List.map_map, List.map_map, List.map_map, sum_map_add3]
  show ((yearly_agg t).map fun a => a.Female).sum + ((yearly_agg t).map fun a => a.Male).sum
      + ((yearly_agg t).map fun a => a.Diverse).sum = _
  rw [yearly_agg_female, yearly_agg_male, yearly_agg_diverse]

/-- The melted by-specialisation aggregate conserves the grand total. -/
theorem melted_spec_total (t : List Row) :
    ((melted_spec t).map (fun e => e.Count)).sum
      = (t.map (fun r => r.Female + r.Male + r.Diverse)).sum := by
  unfold melted_spec
  rw [List.map_append, List.map_append, List.sum_append, List.sum_append,
    List.map_map, List.map_map, List.map_map, sum_map_add3]
  show ((spec_agg t).map fun a => a.Female).sum + ((spec_agg t).map fun a => a.Male).sum
      + ((spec_agg t).map fun a => a.Diverse).sum = _
  rw [spec_agg_female, spec_agg_male, spec_agg_diverse]

/-- The Female slice of the melted by-year aggregate conserves the column sum. -/
theorem melted_agg_gender_female (t : List Row) :
    (((melted_agg t).filter fun e => e.Gender == Gender.Female).map (fun e => e.Count)).sum
      = (t.map Row.Female).sum := by
  unfold melted_agg
  rw [List.filter_append, List.filter_append,
    filter_of_map_all (fun e => e.Gender == Gender.Female)
      (fun a => ({ Year := a.Year, Gender := Gender.Female, Count := a.Female } : YearLong))
      (yearly_agg t) (fun a => by rfl),
    filter_of_map_none (fun e => e.Gender == Gender.Female)
      (fun a => ({ Year := a.Year, Gender := Gender.Male, Count := a.Male } : YearLong))
      (yearly_agg t) (fun a => by rfl),
    filter_of_map_none (fun e => e.Gender == Gender.Female)
      (fun a => ({ Year := a.Year, Gender := Gender.Diverse, Count := a.Diverse } : YearLong))
      (yearly_agg t) (fun a => by rfl),
    List.append_nil, List.append_nil, List.map_map]
  exact yearly_agg_female t

/-- The Male slice of the melted by-year aggregate conserves the column sum. -/
theorem melted_agg_gender_male (t : List Row) :
    (((melted_agg t).filter fun e => e.Gender == Gender.Male).map (fun e => e.Count)).sum
      = (t.map Row.Male).sum := by
  unfold melted_agg
  rw [List.filter_append, List.filter_append,
    filter_of_map_none (fun e => e.Gender == Gender.Male)
      (fun a => ({ Year := a.Year, Gender := Gender.Female, Count := a.Female } : YearLong))
      (yearly_agg t) (fun a => by rfl),
    filter_of_map_all (fun e => e.Gender == Gender.Male)
      (fun a => ({ Year := a.Year, Gender := Gender.Male, Count := a.Male } : YearLong))
      (yearly_agg t) (fun a => by rfl),
    filter_of_map_none (fun e => e.Gender == Gender.Male)
      (fun a => ({ Year := a.Year, Gender := Gender.Diverse, Count := a.Diverse } : YearLong))
      (yearly_agg t) (fun a => by rfl),
    List.nil_append, List.append_nil, List.map_map]
  exact yearly_agg_male t

/-- The Diverse slice of the melted by-year aggregate conserves the column sum. -/
theorem melted_agg_gender_diverse (t : List Row) :
    (((melted_agg t).filter fun e => e.Gender == Gender.Diverse).map (fun e => e.Count)).sum
      = (t.map Row.Diverse).sum := by
  unfold melted_agg
  rw [List.filter_append, List.filter_append,
    filter_of_map_none (fun e => e.Gender == Gender.Diverse)
      (fun a => ({ Year := a.Year, Gender := Gender.Female, Count := a.Female } : YearLong))
      (yearly_agg t) (fun a => by rfl),
    filter_of_map_none (fun e => e.Gender == Gender.Diverse)
      (fun a => ({ Year := a.Year, Gender := Gender.Male, Count := a.Male } : YearLong))
      (yearly_agg t) (fun a => by rfl),
    filter_of_map_all (fun e => e.Gender == Gender.Diverse)
      (fun a => ({ Year := a.Year, Gender := Gender.Diverse, Count := a.Diverse } : YearLong))
      (yearly_agg t) (fun a => by rfl),
    List.nil_append, List.nil_append, List.map_map]
  exact yearly_agg_diverse t

/-- The Female slice of the melted by-specialisation aggregate conserves the
column sum. -/
theorem melted_spec_gender_female (t : List Row) :
    (((melted_spec t).filter fun e => e.Gender == Gender.Female).map (fun e => e.Count)).sum
      = (t.map Row.Female).sum := by
  unfold melted_spec
  rw [List.filter_append, List.filter_append,
    filter_of_map_all (fun e => e.Gender == Gender.Female)
      (fun a => ({ Specialisation := a.Specialisation, Gender := Gender.Female,
                   Count := a.Female } : SpecLong)) (spec_agg t) (fun a => by rfl),
    filter_of_map_none (fun e => e.Gender == Gender.Female)
      (fun a => ({ Specialisation := a.Specialisation, Gender := Gender.Male,
                   Count := a.Male } : SpecLong)) (spec_agg t) (fun a => by rfl),
    filter_of_map_none (fun e => e.Gender == Gender.Female)
      (fun a => ({ Specialisation := a.Specialisation, Gender := Gender.Diverse,
                   Count := a.Diverse } : SpecLong)) (spec_agg t) (fun a => by rfl),
    List.append_nil, List.append_nil, List.map_map]
  exact spec_agg_female t

/-- The Male slice of the melted by-specialisation aggregate conserves the
column sum. -/
theorem melted_spec_gender_male (t : List Row) :
    (((melted_spec t).filter fun e => e.Gender == Gender.Male).map (fun e => e.Count)).sum
      = (t.map Row.Male).sum := by
  unfold melted_spec
  rw [List.filter_append, List.filter_append,
    filter_of_map_none (fun e => e.Gender == Gender.Male)
      (fun a => ({ Specialisation := a.Specialisation, Gender := Gender.Female,
                   Count := a.Female } : SpecLong)) (spec_agg t) (fun a => by rfl),
    filter_of_map_all (fun e => e.Gender == Gender.Male)
      (fun a => ({ Specialisation := a.Specialisation, Gender := Gender.Male,
                   Count := a.Male } : SpecLong)) (spec_agg t) (fun a => by rfl),
    filter_of_map_none (fun e => e.Gender == Gender.Male)
      (fun a => ({ Specialisation := a.Specialisation, Gender := Gender.Diverse,
                   Count := a.Diverse } : SpecLong)) (spec_agg t) (fun a => by rfl),
    List.nil_append, List.append_nil, List.map_map]
  exact spec_agg_male t

/-- The Diverse slice of the melted by-specialisation aggregate conserves the
column sum. -/
theorem melted_spec_gender_diverse (t : List Row) :
    (((melted_spec t).filter fun e => e.Gender == Gender.Diverse).map (fun e => e.Count)).sum
      = (t.map Row.Diverse).sum := by
  unfold melted_spec
  rw [List.filter_append, List.filter_append,
    filter_of_map_none (fun e => e.Gender == Gender.Diverse)
      (fun a => ({ Specialisation := a.Specialisation, Gender := Gender.Female,
                   Count := a.Female } : SpecLong)) (spec_agg t) (fun a => by rfl),
    filter_of_map_none (fun e => e.Gender == Gender.Diverse)
      (fun a => ({ Specialisation := a.Specialisation, Gender := Gender.Male,
                   Count := a.Male } : SpecLong)) (spec_agg t) (fun a => by rfl),
    filter_of_map_all (fun e => e.Gender == Gender.Diverse)
      (fun a => ({ Specialisation := a.Specialisation, Gender := Gender.Diverse,
                   Count := a.Diverse } : SpecLong)) (spec_agg t) (fun a => by rfl),
    List.nil_append, List.nil_append, List.map_map]
  exact spec_agg_diverse t

/-- Three same-denominator pandas divisions sum to exactly one when the
numerators sum to the (nonzero) denominator. -/
theorem pdiv_add_thirds (F M D T : Nat) (hT : T ≠ 0) (hFMD : F + M + D = T) :
    pdiv F T + pdiv M T + pdiv D T = PdVal.val 1 := by
  show PdVal.add (PdVal.add (pdiv F T) (pdiv M T)) (pdiv D T) = PdVal.val 1
  unfold pdiv
  simp only [if_neg hT, PdVal.add]
  have hT2 : (T : ℚ) ≠ 0 := Nat.cast_ne_zero.mpr hT
  have hcast : ((F : ℚ) + M + D) = (T : ℚ) := by exact_mod_cast hFMD
  rw [div_add_div_same, div_add_div_same, hcast, div_self hT2]

/-- pandas division by a zero denominator: `NaN` for numerator zero, `+inf`
otherwise. -/
theorem pdiv_zero_den (a : Nat) : pdiv a 0 = if a = 0 then PdVal.nan else PdVal.inf := by
  unfold pdiv
  rw [if_pos rfl]

/-- The Boolean row predicate of the filter stage, as a membership assertion. -/
theorem filtered_pred_iff (years : List Int) (specs : List String) (r : Row) :
    (years.contains r.Year && specs.contains r.Specialisation) = true
      ↔ r.Year ∈ years ∧ r.Specialisation ∈ specs := by
  simp [List.contains, List.elem_iff]

/-- Single-pass accumulator formulation of the four summary totals, used to
state the elementwise-sum property independently of `summaryTotals`. -/
def addRow (acc : SummaryTotals) (r : Row) : SummaryTotals :=
  { total_headcount := acc.total_headcount + r.Total_headcount
    total_female := acc.total_female + r.Female
    total_male := acc.total_male + r.Male
    total_diverse := acc.total_diverse + r.Diverse }

/-- Folding `addRow` accumulates exactly the four column sums. -/
theorem foldl_addRow (t : List Row) (acc : SummaryTotals) :
    t.foldl addRow acc =
      { total_headcount := acc.total_headcount + (t.map Row.Total_headcount).sum
        total_female := acc.total_female + (t.map Row.Female).sum
        total_male := acc.total_male + (t.map Row.Male).sum
        total_diverse := acc.total_diverse + (t.map Row.Diverse).sum } := by
  induction t generalizing acc with
  | nil => simp
  | cons r t ih =>
    simp only [List.foldl_cons, List.map_cons, List.sum_cons, ih, addRow]
    congr 1 <;> omega

/-- The filter stage never reads `Total_headcount`: filtering commutes with
scrubbing that column. -/
theorem filtered_scrub (df : List Row) (years : List Int) (specs : List String) :
    filtered (df.map scrubHeadcount) years specs
      = (filtered df years specs).map scrubHeadcount := by
  unfold filtered
  rw [List.filter_map]
  rfl

/-- The by-specialisation aggregate never reads `Total_headcount`. -/
theorem spec_agg_scrub (t : List Row) :
    spec_agg (t.map scrubHeadcount) = spec_agg t := by
  have h2 : ∀ s : String,
      ((t.map scrubHeadcount).filter fun r => r.Specialisation == s)
        = (t.filter fun r => r.Specialisation == s).map scrubHeadcount := by
    intro s
    rw [List.filter_map]
    rfl
  unfold spec_agg specKeys
  rw [List.map_map]
  have h1 : t.map (Row.Specialisation ∘ scrubHeadcount) = t.map Row.Specialisation := rfl
  rw [h1]
  refine List.map_congr_left fun s _ => ?_
  simp only [h2, List.map_map]
  rfl

/-- The percentage-by-specialisation table never reads `Total_headcount`. -/
theorem spec_pct_scrub (t : List Row) :
    spec_pct (t.map scrubHeadcount) = spec_pct t := by
  unfold spec_pct
  rw [spec_agg_scrub]

/-- The first example row `{2019,"Civil",10,30,2,42}` of the spec's worked
example. -/
def civRow : Row :=
  { Year := 2019, Specialisation := "Civil", Female := 10, Male := 30, Diverse := 2,
    Total_headcount := 42 }

/-- A schema-valid row with a positive `Female` count and `Total_headcount`
zero (the row invariant is violated). -/
def infRow : Row :=
  { Year := 2019, Specialisation := "Civil", Female := 1, Male := 0, Diverse := 0,
    Total_headcount := 0 }

/-- An all-zero row (the row invariant holds with `Total_headcount = 0`). -/
def zeroRow : Row :=
  { Year := 2019, Specialisation := "Civil", Female := 0, Male := 0, Diverse := 0,
    Total_headcount := 0 }

/-- A row whose `Total_headcount` column (100) disagrees with the sum of its
gender counts (1 + 1 + 0 = 2): the unvalidated row invariant is violated. -/
def violRow : Row :=
  { Year := 2019, Specialisation := "Civil", Female := 1, Male := 1, Diverse := 0,
    Total_headcount := 100 }

/-- The `spec_pct` entry produced from `violRow` alone: the denominator is
the recomputed sum 2, not the `Total_headcount` value 100. -/
def violPct : SpecPct :=
  { Specialisation := "Civil", Female := 1, Male := 1, Diverse := 0, Total := 2,
    Female_pct := PdVal.val (1/2), Male_pct := PdVal.val (1/2),
    Diverse_pct := PdVal.val (0/2) }

/-- The `spec_pct` entry produced from the spec's worked example with both
years selected. -/
def civilPct : SpecPct :=
  { Specialisation := "Civil", Female := 22, Male := 58, Diverse := 5, Total := 85,
    Female_pct := PdVal.val (22/85), Male_pct := PdVal.val (58/85),
    Diverse_pct := PdVal.val (5/85) }

/-! ### The claims -/

/-- Claim C1: for every data-source table and every filter selection, the
filtered table contains exactly those rows whose `Year` is in the selected
years and whose `Specialisation` is in the selected specialisations — no
extras and no omissions (stated as a membership characterisation and,
duplicate-aware, as a row-count equation) — and the rows appear in the
original row order of the source (the result is a sublist of the source).
The filter is a pure function of `(table, selection)`. -/
theorem filtered_rows_exact (df : List Row) (years : List Int) (specs : List String) :
    (filtered df years specs).Sublist df ∧
    (∀ r : Row, r ∈ filtered df years specs ↔
        r ∈ df ∧ r.Year ∈ years ∧ r.Specialisation ∈ specs) ∧
    (∀ r : Row, (filtered df years specs).count r
        = if r.Year ∈ years ∧ r.Specialisation ∈ specs then df.count r else 0) := by
  refine ⟨List.filter_sublist _, fun r => ?_, fun r => ?_⟩
  · unfold filtered
    rw [List.mem_filter, filtered_pred_iff]
  · by_cases h : r.Year ∈ years ∧ r.Specialisation ∈ specs
    · rw [if_pos h]
      exact List.count_filter ((filtered_pred_iff years specs r).mpr h)
    · rw [if_neg h]
      refine List.count_eq_zero.mpr fun hmem => ?_
      unfold filtered at hmem
      rw [List.mem_filter] at hmem
      exact h ((filtered_pred_iff years specs r).mp hmem.2)

/-- Claim C2, amended: when either selection dimension is empty, the filtered
table is empty, the four summary totals are all zero, and no exception is
raised anywhere in the recomputation (the Total-students and Diverse-count
metrics show 0) — but the Female-share and Male-share metrics do compute the
division `0 / 0`, which yields `NaN` (rendered `nan%`), not 0. -/
theorem empty_selection_graceful (df : List Row) (years : List Int) (specs : List String)
    (h : years = [] ∨ specs = []) :
    filtered df years specs = [] ∧
    summaryTotals (filtered df years specs)
      = { total_headcount := 0, total_female := 0, total_male := 0, total_diverse := 0 } ∧
    female_share (filtered df years specs) = PdVal.nan ∧
    male_share (filtered df years specs) = PdVal.nan := by
  have hf : filtered df years specs = [] := by
    rcases h with h | h <;> subst h <;> simp [filtered]
  rw [hf]
  exact ⟨rfl, rfl, rfl, rfl⟩

/-- Claim C2, witness: the amended claim evaluated at the spec's example
table with the empty year selection. -/
theorem empty_selection_graceful_witness :
    filtered exampleDf [] ["Civil"] = [] ∧
    summaryTotals (filtered exampleDf [] ["Civil"])
      = { total_headcount := 0, total_female := 0, total_male := 0, total_diverse := 0 } ∧
    female_share (filtered exampleDf [] ["Civil"]) = PdVal.nan ∧
    male_share (filtered exampleDf [] ["Civil"]) = PdVal.nan :=
  empty_selection_graceful exampleDf [] ["Civil"] (Or.inl rfl)

/-- Claim C2, counterexample to the claim as stated: with an empty year
selection the Female-share and Male-share metric values are `NaN` — the
division `0 / 0` is performed — and `NaN` is not the displayed value 0. -/
theorem empty_selection_share_not_zero :
    female_share (filtered exampleDf [] ["Civil"]) = PdVal.nan ∧
    male_share (filtered exampleDf [] ["Civil"]) = PdVal.nan ∧
    PdVal.nan ≠ PdVal.val 0 :=
  ⟨rfl, rfl, fun h => PdVal.noConfusion h⟩

/-- Claim C3: for every row of the filtered table with positive
`Total_headcount`, if the row satisfies the upstream invariant
`Female + Male + Diverse = Total_headcount` then the derived percentage
columns satisfy `Female_pct + Male_pct + Diverse_pct = 1`, exactly, over the
rationals. -/
theorem row_pct_sum_one (df : List Row) (years : List Int) (specs : List String)
    (r : Row) (hmem : r ∈ filtered df years specs) (hpos : 0 < r.Total_headcount)
    (hinv : r.Female + r.Male + r.Diverse = r.Total_headcount) :
    Female_pct r + Male_pct r + Diverse_pct r = PdVal.val 1 :=
  pdiv_add_thirds r.Female r.Male r.Diverse r.Total_headcount
    (Nat.pos_iff_ne_zero.mp hpos) hinv

/-- Claim C3, witness: the percentages of the example row
`{2019,"Civil",10,30,2,42}` sum to 1. -/
theorem row_pct_sum_one_witness :
    Female_pct civRow + Male_pct civRow + Diverse_pct civRow = PdVal.val 1 :=
  row_pct_sum_one exampleDf [2019, 2020] ["Civil"] civRow (by decide) (by decide) (by decide)

/-- Claim C4: the melted by-year aggregate and the melted by-specialisation
aggregate each conserve total counts over the filtered table: the sum of all
`Count` values equals the sum of `Female + Male + Diverse` over the filtered
rows, and, per gender, the sum of that gender's long-form values equals the
sum of that gender's column over the filtered rows. -/
theorem melted_conservation (df : List Row) (years : List Int) (specs : List String) :
    ((melted_agg (filtered df years specs)).map (fun e => e.Count)).sum
        = ((filtered df years specs).map (fun r => r.Female + r.Male + r.Diverse)).sum ∧
    ((melted_spec (filtered df years specs)).map (fun e => e.Count)).sum
        = ((filtered df years specs).map (fun r => r.Female + r.Male + r.Diverse)).sum ∧
    (((melted_agg (filtered df years specs)).filter fun e => e.Gender == Gender.Female).map
        (fun e => e.Count)).sum = ((filtered df years specs).map Row.Female).sum ∧
    (((melted_agg (filtered df years specs)).filter fun e => e.Gender == Gender.Male).map
        (fun e => e.Count)).sum = ((filtered df years specs).map Row.Male).sum ∧
    (((melted_agg (filtered df years specs)).filter fun e => e.Gender == Gender.Diverse).map
        (fun e => e.Count)).sum = ((filtered df years specs).map Row.Diverse).sum ∧
    (((melted_spec (filtered df years specs)).filter fun e => e.Gender == Gender.Female).map
        (fun e => e.Count)).sum = ((filtered df years specs).map Row.Female).sum ∧
    (((melted_spec (filtered df years specs)).filter fun e => e.Gender == Gender.Male).map
        (fun e => e.Count)).sum = ((filtered df years specs).map Row.Male).sum ∧
    (((melted_spec (filtered df years specs)).filter fun e => e.Gender == Gender.Diverse).map
        (fun e => e.Count)).sum = ((filtered df years specs).map Row.Diverse).sum :=
  ⟨melted_agg_total _, melted_spec_total _, melted_agg_gender_female _,
    melted_agg_gender_male _, melted_agg_gender_diverse _, melted_spec_gender_female _,
    melted_spec_gender_male _, melted_spec_gender_diverse _⟩

/-- Claim C5: in the percentage-by-specialisation aggregate, every group
whose (recomputed) group total is nonzero has its three gender percentages
summing to exactly 1, and each percentage is that group's gender sum divided
by the group's total. -/
theorem spec_pct_group_sum_one (df : List Row) (years : List Int) (specs : List String)
    (e : SpecPct) (he : e ∈ spec_pct (filtered df years specs)) (hT : e.Total ≠ 0) :
    e.Female_pct + e.Male_pct + e.Diverse_pct = PdVal.val 1 ∧
    e.Female_pct = pdiv e.Female e.Total ∧
    e.Male_pct = pdiv e.Male e.Total ∧
    e.Diverse_pct = pdiv e.Diverse e.Total := by
  unfold spec_pct at he
  obtain ⟨a, -, rfl⟩ := List.mem_map.mp he
  exact ⟨pdiv_add_thirds a.Female a.Male a.Diverse (a.Female + a.Male + a.Diverse) hT rfl,
    rfl, rfl, rfl⟩

/-- Claim C5, witness: the single "Civil" group of the spec's worked example
(total 85) has percentages 22/85, 58/85 and 5/85, which sum to 1. -/
theorem spec_pct_group_sum_one_witness :
    civilPct.Female_pct + civilPct.Male_pct + civilPct.Diverse_pct = PdVal.val 1 ∧
    civilPct.Female_pct = pdiv civilPct.Female civilPct.Total ∧
    civilPct.Male_pct = pdiv civilPct.Male civilPct.Total ∧
    civilPct.Diverse_pct = pdiv civilPct.Diverse civilPct.Total :=
  spec_pct_group_sum_one exampleDf [2019, 2020] ["Civil"] civilPct
    (by rw [show spec_pct (filtered exampleDf [2019, 2020] ["Civil"]) = [civilPct] from rfl]
        exact List.mem_singleton.mpr rfl)
    (by decide)

/-- Claim C6, amended: for every row of the filtered table with
`Total_headcount = 0`, computing the percentage columns does not raise; each
percentage is `NaN` when that gender's count is 0 and `+inf` when the count
is positive — so under the row invariant all three are `NaN` — and no
percentage is ever the value 0. -/
theorem zero_headcount_pct_policy (df : List Row) (years : List Int) (specs : List String)
    (r : Row) (hmem : r ∈ filtered df years specs) (h0 : r.Total_headcount = 0) :
    (Female_pct r = if r.Female = 0 then PdVal.nan else PdVal.inf) ∧
    (Male_pct r = if r.Male = 0 then PdVal.nan else PdVal.inf) ∧
    (Diverse_pct r = if r.Diverse = 0 then PdVal.nan else PdVal.inf) ∧
    Female_pct r ≠ PdVal.val 0 ∧ Male_pct r ≠ PdVal.val 0 ∧ Diverse_pct r ≠ PdVal.val 0 ∧
    (r.Female + r.Male + r.Diverse = r.Total_headcount →
      Female_pct r = PdVal.nan ∧ Male_pct r = PdVal.nan ∧ Diverse_pct r = PdVal.nan) := by
  unfold Female_pct Male_pct Diverse_pct
  rw [h0]
  refine ⟨pdiv_zero_den _, pdiv_zero_den _, pdiv_zero_den _, ?_, ?_, ?_, ?_⟩
  · rw [pdiv_zero_den]
    by_cases hF : r.Female = 0 <;> simp [hF]
  · rw [pdiv_zero_den]
    by_cases hM : r.Male = 0 <;> simp [hM]
  · rw [pdiv_zero_den]
    by_cases hD : r.Diverse = 0 <;> simp [hD]
  · intro hsum
    have hF : r.Female = 0 := by omega
    have hM : r.Male = 0 := by omega
    have hD : r.Diverse = 0 := by omega
    rw [pdiv_zero_den, pdiv_zero_den, pdiv_zero_den, if_pos hF, if_pos hM, if_pos hD]
    exact ⟨rfl, rfl, rfl⟩

/-- Claim C6, witness: the amended claim evaluated at an all-zero row of a
one-row filtered table. -/
theorem zero_headcount_pct_policy_witness :
    (Female_pct zeroRow = if zeroRow.Female = 0 then PdVal.nan else PdVal.inf) ∧
    (Male_pct zeroRow = if zeroRow.Male = 0 then PdVal.nan else PdVal.inf) ∧
    (Diverse_pct zeroRow = if zeroRow.Diverse = 0 then PdVal.nan else PdVal.inf) ∧
    Female_pct zeroRow ≠ PdVal.val 0 ∧ Male_pct zeroRow ≠ PdVal.val 0 ∧
    Diverse_pct zeroRow ≠ PdVal.val 0 ∧
    (zeroRow.Female + zeroRow.Male + zeroRow.Diverse = zeroRow.Total_headcount →
      Female_pct zeroRow = PdVal.nan ∧ Male_pct zeroRow = PdVal.nan ∧
      Diverse_pct zeroRow = PdVal.nan) :=
  zero_headcount_pct_policy [zeroRow] [2019] ["Civil"] zeroRow (by decide) rfl

/-- Claim C6, counterexample to the claim as stated: the schema-valid row
`{2019,"Civil",1,0,0,0}` sits in its own filtered table, and its
`Female_pct` is `+inf` — a defined, non-`NaN` value (pandas divides the
positive count by zero), so the percentage is not "NaN or null". -/
theorem zero_headcount_pct_inf :
    filtered [infRow] [2019] ["Civil"] = [infRow] ∧
    Female_pct infRow = PdVal.inf ∧
    PdVal.inf ≠ PdVal.nan :=
  ⟨by decide, rfl, fun h => PdVal.noConfusion h⟩

/-- Claim C7: the summary totals are the elementwise sums of the `Female`,
`Male`, `Diverse` and `Total_headcount` columns over the filtered table
(stated against an independent single-pass fold), recomputation on the same
input yields the same values, and on the spec's example source with both
rows selected the totals are headcount 85, female 22, male 58, diverse 5. -/
theorem summary_totals_elementwise :
    (∀ t : List Row, summaryTotals t = t.foldl addRow
        { total_headcount := 0, total_female := 0, total_male := 0, total_diverse := 0 }) ∧
    (∀ t : List Row, summaryTotals t = summaryTotals t) ∧
    summaryTotals (filtered exampleDf [2019, 2020] ["Civil"])
      = { total_headcount := 85, total_female := 22, total_male := 58, total_diverse := 5 } := by
  refine ⟨fun t => ?_, fun t => rfl, by decide⟩
  rw [foldl_addRow]
  simp [summaryTotals]

/-- Claim C8: color-mapping resolution is a pure function of
`(palette source, colorblind override, custom colors)`, and whenever the
colorblind override is enabled the resolved mapping is exactly the Okabe-Ito
triple Female→#E69F00, Male→#0072B2, Diverse→#009E73, for every palette
source and custom colors. -/
theorem color_mapping_pure_okabe :
    (∀ (p : PaletteSource) (f m d : String),
        resolveColors true p f m d
          = { female_col := "#E69F00", male_col := "#0072B2", diverse_col := "#009E73" }) ∧
    (∀ (b : Bool) (p : PaletteSource) (f m d : String),
        resolveColors b p f m d = resolveColors b p f m d) :=
  ⟨fun _ _ _ _ => rfl, fun _ _ _ _ _ => rfl⟩

/-- Claim C9: the choice between the single-period pie path and the
multi-period stacked-bar path is a function of the year selection alone —
independent of the underlying data — and the pie path is taken exactly when
the number of selected years equals 1. -/
theorem chart_path_year_count :
    (∀ (df df2 : List Row) (years : List Int), chartPath df years = chartPath df2 years) ∧
    (∀ (df : List Row) (years : List Int),
        chartPath df years = ChartPath.pie ↔ years.length = 1) := by
  refine ⟨fun _ _ _ => rfl, fun df years => ?_⟩
  unfold chartPath
  by_cases h : years.length = 1
  · simp [h]
  · simp [h]

/-- Claim C10 (implicit): the percentage-by-specialisation aggregate divides
by the recomputed per-group sum `Female + Male + Diverse`, never reading the
`Total_headcount` column (scrubbing that column does not change the result),
so every group with a nonzero recomputed sum has percentages summing to
exactly 1 even when the unvalidated row invariant is violated. -/
theorem spec_pct_denominator_recomputed (df : List Row) (years : List Int)
    (specs : List String) :
    spec_pct (filtered (df.map scrubHeadcount) years specs)
        = spec_pct (filtered df years specs) ∧
    (∀ e ∈ spec_pct (filtered df years specs),
        e.Total = e.Female + e.Male + e.Diverse ∧
        e.Female_pct = pdiv e.Female (e.Female + e.Male + e.Diverse) ∧
        e.Male_pct = pdiv e.Male (e.Female + e.Male + e.Diverse) ∧
        e.Diverse_pct = pdiv e.Diverse (e.Female + e.Male + e.Diverse)) ∧
    (∀ e ∈ spec_pct (filtered df years specs),
        e.Female + e.Male + e.Diverse ≠ 0 →
        e.Female_pct + e.Male_pct + e.Diverse_pct = PdVal.val 1) := by
  refine ⟨?_, ?_, ?_⟩
  · rw [filtered_scrub, spec_pct_scrub]
  · intro e he
    unfold spec_pct at he
    obtain ⟨a, -, rfl⟩ := List.mem_map.mp he
    exact ⟨rfl, rfl, rfl, rfl⟩
  · intro e he hne
    unfold spec_pct at he
    obtain ⟨a, -, rfl⟩ := List.mem_map.mp he
    exact pdiv_add_thirds a.Female a.Male a.Diverse (a.Female + a.Male + a.Diverse) hne rfl

/-- Claim C10, witness: on a one-row table whose `Total_headcount` (100)
violates the row invariant (gender counts sum to 2), the group's
percentages are 1/2, 1/2 and 0 — computed against the recomputed sum 2 —
and they sum to exactly 1. -/
theorem spec_pct_denominator_recomputed_witness :
    violPct ∈ spec_pct (filtered [violRow] [2019] ["Civil"]) ∧
    violPct.Female + violPct.Male + violPct.Diverse ≠ 0 ∧
    violPct.Female_pct + violPct.Male_pct + violPct.Diverse_pct = PdVal.val 1 := by
  have hmem : violPct ∈ spec_pct (filtered [violRow] [2019] ["Civil"]) := by
    rw [show spec_pct (filtered [violRow] [2019] ["Civil"]) = [violPct] from rfl]
    exact List.mem_singleton.mpr rfl
  exact ⟨hmem, by decide,
    (spec_pct_denominator_recomputed [violRow] [2019] ["Civil"]).2.2 violPct hmem (by decide)⟩

end GenderDash
